import Mathlib

/-!
Verification of the chat orchestration core of the `uqwr2025` repository.

The development shallowly embeds the client-side orchestration logic:

* `ApiStream` — the SSE consumption loop of
  `ApiService.generateResponseStream` (src/frontend/src/services/api.ts,
  lines 85–153), modelled as a function from the decoded stream lines and
  the way the underlying read ends to the list of callback invocations it
  performs.
* `Chat` — the streaming chat controller of `ChatInterface`
  (src/unnamed/part_002): the `handleSendMessage` turn with its
  `onToken` / `onError` / `onDone` callbacks, plus the image-removal and
  selection handlers.
* `Input` — `MessageInput.handleSubmit`
  (src/frontend/src/components/MessageInput.tsx, lines 40–46).
* `Selector` — `ModelSelector.handleModelSwitch`
  (src/frontend/src/components/ModelSelector.tsx, lines 55–78) and the UI
  composition of its `disabled` prop (src/unnamed/part_002, line 315).
* `Simple` — the non-streaming variants in
  src/frontend/src/components/SimpleChatInterface.tsx and
  src/unnamed/part_001.

React `setState` updater chains are modelled as sequential state passing:
within one event-handler invocation the updaters are applied in program
order to the state captured at the render that produced the handler.
Network effects are parameters (stream line list, ack outcome, switch
outcome); calls to the backend are recorded in ghost observation fields
(`generationRequests`, `ackRequested`, `revoked`).
-/

namespace Chat

/-- Message role, the `type` field of the `Message` interface
(src/unnamed/part_004). -/
inductive Role
  | user
  | assistant
deriving DecidableEq, Repr

/-- The `Message` record of src/unnamed/part_004: `id`, `type`, `content`,
`images`, `isStreaming` (the `timestamp` field is opaque wall-clock data and
is not modelled). -/
structure Message where
  id : String
  role : Role
  content : String
  images : List String
  isStreaming : Bool
deriving DecidableEq, Repr

/-- The `UploadedImage` record: local id, object URL, optional remote path,
upload status and error marker. -/
structure UploadedImage where
  id : String
  url : String
  uploadedPath : Option String
  isUploading : Bool
  uploadError : Option String
deriving DecidableEq, Repr

end Chat

namespace ApiStream

/-- One complete line of the event stream as the loop body of
`generateResponseStream` (api.ts lines 124–147) decodes it:

* `noData` — the line does not start with `"data: "` (skipped);
* `malformed` — `JSON.parse` on the payload throws (logged, skipped);
* `startEvt` / `token` / `doneEvt` / `errorEvt` — payloads whose `type`
  field matches one of the four `switch` cases;
* `other` — well-formed JSON whose `type` matches no case (the `switch`
  has no default, so the line is skipped). -/
inductive SSELine
  | noData
  | malformed
  | startEvt
  | token (content : String)
  | doneEvt
  | errorEvt (message : String)
deriving DecidableEq, Repr

/-- `other` is a separate constructor kept distinct from `noData`:
a parsed payload with an unrecognised `type`. -/
inductive ExtraLine
  | plain (l : SSELine)
  | other
deriving DecidableEq, Repr

/-- A callback invocation performed by `generateResponseStream` on its
caller-supplied handlers. -/
inductive Callback
  | onStart
  | onToken (t : String)
  | onDone
  | onError (e : String)
deriving DecidableEq, Repr

/-- How the underlying `reader.read()` loop ends when no terminal event
line was seen: `cleanEof` models `done === true` (the loop `break`s and the
function returns), `exn msg` models a rejected `fetch`/`read` whose error is
caught by the surrounding `try` and forwarded to `onError` (api.ts lines
149–152). -/
inductive StreamEnd
  | cleanEof
  | exn (msg : String)
deriving DecidableEq, Repr

/-- The `for (const line of lines)` dispatch of api.ts lines 124–147:
returns the callback invocations in order, paired with `true` iff a
terminal `done`/`error` line caused the early `return`. -/
def processLines : List SSELine → List Callback × Bool
  | [] => ([], false)
  | l :: rest =>
    match l with
    | .noData => processLines rest
    | .malformed => processLines rest
    | .startEvt =>
      let p := processLines rest
      (.onStart :: p.1, p.2)
    | .token c =>
      let p := processLines rest
      (.onToken c :: p.1, p.2)
    | .doneEvt => ([.onDone], true)
    | .errorEvt m => ([.onError m], true)

/-- Lines with an unrecognised event `type` fall through the `switch`
exactly like non-`data:` lines: dispatching `ExtraLine`s erases `other`
to a skip. -/
def eraseOther : List ExtraLine → List SSELine
  | [] => []
  | .plain l :: rest => l :: eraseOther rest
  | .other :: rest => .noData :: eraseOther rest

/-- `ApiService.generateResponseStream` (api.ts lines 85–153) as the list
of callback invocations it performs. `fetchOk` is `response.ok` together
with body-reader availability; when it is `false` the thrown error is
caught by the outer `try` and reported through `onError`. When the line
dispatch hit a terminal event the function has already returned; otherwise
the read loop's ending decides whether `onError` fires. -/
def generateResponseStream (fetchOk : Bool) (lines : List SSELine)
    (ending : StreamEnd) : List Callback :=
  if !fetchOk then [.onError "HTTP error"]
  else
    let p := processLines lines
    if p.2 then p.1
    else
      match ending with
      | .cleanEof => p.1
      | .exn msg => p.1 ++ [.onError msg]

end ApiStream

namespace Chat

open ApiStream

/-- The state of `ChatInterface` (src/unnamed/part_002) relevant to one
generation turn, together with two ghost observation fields:
`generationRequests` counts POSTs to `/generate/stream` and `ackRequested`
records whether `apiService.logAssistantMessage` was called. -/
structure ChatState where
  messages : List Message
  uploadedImages : List UploadedImage
  selectedImages : List UploadedImage
  isGenerating : Bool
  isWaitingForLogConfirmation : Bool
  isConnected : Bool
  error : Option String
  currentModelId : Option String
  generationRequests : Nat
  ackRequested : Bool
deriving DecidableEq, Repr

/-- ASCII whitespace, the fragment of the character class trimmed by the
JavaScript `String.prototype.trim` that this development needs. -/
def isJsWhitespace (c : Char) : Bool :=
  c == ' ' || c == '\t' || c == '\n' || c == '\r' || c == '\x0b' || c == '\x0c'

/-- Structural model of `text.trim()`: drop leading and trailing whitespace.
It is used only through emptiness tests (`!text.trim()`), for which the
ASCII whitespace set is adequate. -/
def trimString (s : String) : String :=
  String.mk (((s.data.dropWhile isJsWhitespace).reverse.dropWhile
    isJsWhitespace).reverse)

/-- The `onToken` callback (part_002 lines 116–122): append the fragment to
the message whose id is the turn's `assistantMessageId`. -/
def applyToken (aid t : String) (msgs : List Message) : List Message :=
  msgs.map fun m => if m.id == aid then { m with content := m.content ++ t } else m

/-- The `onError` callback (part_002 lines 128–143): on the placeholder,
keep non-empty content (`msg.content || Error: ...` — the empty string is
falsy) and stop streaming; surface a global error; reset both lock flags. -/
def applyError (aid e : String) (s : ChatState) : ChatState :=
  { s with
    messages := s.messages.map fun m =>
      if m.id == aid then
        { m with
          content := if m.content == "" then "Error: " ++ e else m.content,
          isStreaming := false }
      else m,
    error := some "Failed to generate response. Please try again.",
    isGenerating := false,
    isWaitingForLogConfirmation := false }

/-- The `onDone` callback (part_002 lines 145–185): stop streaming on the
placeholder, raise the confirmation lock, look the placeholder up; if found,
issue `logAssistantMessage` whose `.then` and `.catch` continuations each
clear both lock flags; if not found, clear both flags directly. `ackOk`
selects between the `.then` and `.catch` continuations. -/
def applyDone (aid : String) (ackOk : Bool) (s : ChatState) : ChatState :=
  let s1 := { s with
    messages := s.messages.map fun (m : Message) =>
      if m.id == aid then { m with isStreaming := false } else m }
  let s2 := { s1 with isWaitingForLogConfirmation := true }
  match s2.messages.find? (fun m => m.id == aid) with
  | some _ =>
    let s3 := { s2 with ackRequested := true }
    if ackOk then
      { s3 with isWaitingForLogConfirmation := false, isGenerating := false }
    else
      { s3 with isWaitingForLogConfirmation := false, isGenerating := false }
  | none => { s2 with isWaitingForLogConfirmation := false, isGenerating := false }

/-- Fold the stream's callback invocations over the controller state in
arrival order (`onStart` only logs). -/
def runCallbacks (aid : String) (ackOk : Bool) : List Callback → ChatState → ChatState
  | [], s => s
  | cb :: rest, s =>
    let s' :=
      match cb with
      | .onStart => s
      | .onToken t => { s with messages := applyToken aid t s.messages }
      | .onDone => applyDone aid ackOk s
      | .onError e => applyError aid e s
    runCallbacks aid ackOk rest s'

/-- The prefix of `handleSendMessage` (part_002 lines 73–113) up to the
point where the streaming request is issued: the empty-input guard, the
model-selected guard, the optimistic user message, the generation lock, and
the streaming placeholder. Returns the updated state and whether the guards
passed (i.e. whether the request was actually sent). -/
def sendMessageStart (s : ChatState) (text : String)
    (imagesToSend : List UploadedImage) (userId aid : String) :
    ChatState × Bool :=
  if trimString text == "" && imagesToSend.isEmpty then (s, false)
  else
    match s.currentModelId with
    | none =>
      ({ s with error := some "Please select and load a model before sending messages." },
       false)
    | some _ =>
      let userMessage : Message :=
        { id := userId, role := .user, content := text,
          images := imagesToSend.map (fun img => img.uploadedPath.getD ""),
          isStreaming := false }
      let s1 := { s with
        messages := s.messages ++ [userMessage],
        isGenerating := true,
        error := none }
      let assistantMessage : Message :=
        { id := aid, role := .assistant, content := "", images := [],
          isStreaming := true }
      let s2 := { s1 with
        messages := s1.messages ++ [assistantMessage],
        generationRequests := s1.generationRequests + 1 }
      (s2, true)

/-- `handleSendMessage` (part_002 lines 73–213) over one whole turn: the
guarded start, the stream consumption through the four callbacks, the
`finally` block (whose `isWaitingForLogConfirmation` is the stale value
captured at the render that created the handler, i.e. `s`'s), and the
unconditional clearing of the selection. The outer `catch` is dead code:
`generateResponseStream` catches every stream error internally. -/
def handleSendMessage (s : ChatState) (text : String)
    (imagesToSend : List UploadedImage) (userId aid : String)
    (fetchOk : Bool) (lines : List SSELine) (ending : StreamEnd)
    (ackOk : Bool) : ChatState :=
  let start := sendMessageStart s text imagesToSend userId aid
  if start.2 then
    let cbs := generateResponseStream fetchOk lines ending
    let s3 := runCallbacks aid ackOk cbs start.1
    let s4 :=
      if s.isWaitingForLogConfirmation then
        { s3 with isGenerating := false, isWaitingForLogConfirmation := false }
      else s3
    { s4 with selectedImages := [] }
  else start.1

/-- Content of the message with the given id, if any. -/
def contentOf (aid : String) (msgs : List Message) : Option String :=
  (msgs.find? (fun m => m.id == aid)).map Message.content

/-- Streaming flag of the message with the given id, if any. -/
def streamingOf (aid : String) (msgs : List Message) : Option Bool :=
  (msgs.find? (fun m => m.id == aid)).map Message.isStreaming

end Chat

namespace Assets

open Chat (UploadedImage)

/-- The image bookkeeping shared by both chat interfaces: uploaded list,
selection list, and a ghost trace `revoked` recording every
`URL.revokeObjectURL` call in order. -/
structure ImgState where
  uploadedImages : List UploadedImage
  selectedImages : List UploadedImage
  revoked : List String
deriving DecidableEq, Repr

/-- `handleRemoveImage` of `ChatInterface` (src/unnamed/part_002 lines
231–238): filter the image out of both lists and unconditionally revoke its
object URL. This variant issues no remote delete. -/
def handleRemoveImage (s : ImgState) (imageToRemove : UploadedImage) : ImgState :=
  { uploadedImages := s.uploadedImages.filter (fun img => img.id != imageToRemove.id),
    selectedImages := s.selectedImages.filter (fun img => img.id != imageToRemove.id),
    revoked := s.revoked ++ [imageToRemove.url] }

/-- `handleRemoveImage` of `SimpleChatInterface`
(src/frontend/src/components/SimpleChatInterface.tsx lines 186–201): look
the image up by id in the uploaded list, evict it from both lists, and only
if the lookup succeeded revoke its URL and issue a best-effort remote
delete. `remoteDeleteOk` is the outcome of `apiService.deleteFile`; its
failure is caught and changes no state. -/
def simpleHandleRemoveImage (s : ImgState) (imageId : String)
    (remoteDeleteOk : Bool) : ImgState :=
  let imageToRemove := s.uploadedImages.find? (fun img => img.id == imageId)
  let s1 : ImgState :=
    { s with
      uploadedImages := s.uploadedImages.filter (fun img => img.id != imageId),
      selectedImages := s.selectedImages.filter (fun img => img.id != imageId) }
  match imageToRemove with
  | some img =>
    match img.uploadedPath with
    | some _ =>
      if remoteDeleteOk then { s1 with revoked := s1.revoked ++ [img.url] }
      else { s1 with revoked := s1.revoked ++ [img.url] }
    | none => { s1 with revoked := s1.revoked ++ [img.url] }
  | none => s1

end Assets

namespace Input

open Chat (UploadedImage)

/-- `MessageInput.handleSubmit`
(src/frontend/src/components/MessageInput.tsx lines 40–46): returns the
arguments passed to `onSendMessage`, or `none` when the submit is rejected
before `onSendMessage` is invoked. -/
def handleSubmit (message : String) (selectedImages : List UploadedImage)
    (isGenerating disabled isWaitingForLogConfirmation : Bool) :
    Option (String × List UploadedImage) :=
  if (Chat.trimString message == "" && selectedImages.isEmpty)
      || isGenerating || disabled || isWaitingForLogConfirmation then none
  else some (message, selectedImages)

end Input

namespace Selector

/-- The local state of `ModelSelector`
(src/frontend/src/components/ModelSelector.tsx): current model, switch
flag, last-known server task flag, and the two error banners. -/
structure MSState where
  currentModelId : Option String
  isSwitching : Bool
  isTaskRunning : Bool
  switchError : Option String
  loadError : Option String
deriving DecidableEq, Repr

/-- Outcome of the `apiService.switchModel` request inside
`handleModelSwitch`: on success it carries the result of the subsequent
`loadAvailableModels` refresh (`none` when that refresh itself failed,
otherwise the refreshed `current_model_id` and `is_task_running`). -/
inductive SwitchOutcome
  | success (reload : Option (Option String × Bool))
  | failure (msg : String)
deriving DecidableEq, Repr

/-- `ModelSelector.handleModelSwitch` (ModelSelector.tsx lines 55–78):
guarded no-op when the target is already current, a switch is in progress,
or a task is running; otherwise raise `isSwitching`, issue the switch, and
on success set the current model and refresh, on failure surface
`switchError`; `finally` resets `isSwitching`. -/
def handleModelSwitch (s : MSState) (modelId : String)
    (outcome : SwitchOutcome) : MSState :=
  if some modelId == s.currentModelId || s.isSwitching || s.isTaskRunning then s
  else
    let s1 := { s with isSwitching := true, switchError := none }
    match outcome with
    | .success reload =>
      let s2 := { s1 with currentModelId := some modelId }
      let s3 :=
        match reload with
        | some (cur, task) =>
          { s2 with currentModelId := cur, isTaskRunning := task, loadError := none }
        | none => { s2 with loadError := some "Failed to load available models" }
      { s3 with isSwitching := false }
    | .failure msg => { s1 with switchError := some msg, isSwitching := false }

end Selector

namespace UI

open Chat Selector Input

/-- The composed interface state: the `ChatInterface` state, the
`ModelSelector` local state, and the audio-processing flag that feeds the
selector's `disabled` prop (src/unnamed/part_002 line 315). -/
structure UIState where
  chat : ChatState
  selector : MSState
  isAudioLoading : Bool
deriving DecidableEq, Repr

/-- A click on a model entry in the dropdown: the entry's `disabled`
attribute is `!canSwitchModel || isSwitching` where `canSwitchModel =
!disabled && !isTaskRunning && !isSwitching` and the selector's `disabled`
prop is `isGenerating || isAudioLoading` (part_002 line 315). An enabled
click runs the guard of `handleModelSwitch` and, passing it, raises
`isSwitching` (the switch request is now in flight). -/
def uiSwitchStart (u : UIState) (modelId : String) : UIState :=
  let disabled := u.chat.isGenerating || u.isAudioLoading
  let canSwitchModel := !disabled && !u.selector.isTaskRunning && !u.selector.isSwitching
  let itemDisabled := !canSwitchModel || u.selector.isSwitching
  if itemDisabled then u
  else if some modelId == u.selector.currentModelId || u.selector.isSwitching
      || u.selector.isTaskRunning then u
  else { u with selector := { u.selector with isSwitching := true, switchError := none } }

/-- A submit of the message input: `MessageInput`'s `disabled` prop is
`!isConnected || !currentModelId` (part_002 line 342); an accepted submit
invokes `handleSendMessage`, whose synchronous prefix (up to issuing the
streaming request) is `sendMessageStart`. -/
def uiSubmit (u : UIState) (message : String) (userId aid : String) : UIState :=
  let disabled := !u.chat.isConnected || u.chat.currentModelId.isNone
  match handleSubmit message u.chat.selectedImages u.chat.isGenerating disabled
      u.chat.isWaitingForLogConfirmation with
  | none => u
  | some args =>
    { u with chat := (Chat.sendMessageStart u.chat args.1 args.2 userId aid).1 }

end UI

namespace Simple

open Chat (Message Role UploadedImage)

/-- State of the non-streaming interfaces (`SimpleChatInterface.tsx` and
the session-based `ChatInterface` of src/unnamed/part_001) relevant to one
send. -/
structure SimpleState where
  messages : List Message
  uploadedImages : List UploadedImage
  selectedImages : List UploadedImage
  isGenerating : Bool
  error : Option String
deriving DecidableEq, Repr

/-- `handleSendMessage` of src/unnamed/part_001 (lines 321–370): empty-input
guard, optimistic user message, one non-streaming generate request whose
success appends the response and whose failure appends an error message,
`finally` clears the generation flag, then the selection is cleared. -/
def legacyHandleSendMessage (s : SimpleState) (text : String)
    (imagesToSend : List UploadedImage) (userId aid : String)
    (outcome : Except String String) : SimpleState :=
  if Chat.trimString text == "" && imagesToSend.isEmpty then s
  else
    let userMessage : Message :=
      { id := userId, role := .user, content := text,
        images := imagesToSend.map (fun img => img.uploadedPath.getD ""),
        isStreaming := false }
    let s1 := { s with
      messages := s.messages ++ [userMessage],
      isGenerating := true,
      error := none }
    let s2 : SimpleState :=
      match outcome with
      | .ok responseText =>
        { s1 with
          messages := s1.messages ++
            [{ id := aid, role := .assistant, content := responseText,
               images := [], isStreaming := false }] }
      | .error msg =>
        { s1 with
          messages := s1.messages ++
            [{ id := aid, role := .assistant, content := "Error: " ++ msg,
               images := [], isStreaming := false }],
          error := some "Failed to generate response. Please try again." }
    let s3 := { s2 with isGenerating := false }
    { s3 with selectedImages := [] }

end Simple

namespace Chat

/-- Concatenation of token fragments in arrival order. -/
def concatTokens : List String → String
  | [] => ""
  | t :: ts => t ++ concatTokens ts

/-- `find?` over a map that rewrites only the entries with the searched id,
preserving ids. -/
theorem find?_map_guard (aid : String) (f : Message → Message)
    (hf : ∀ m, (f m).id = m.id) (msgs : List Message) :
    (msgs.map (fun m => if m.id == aid then f m else m)).find?
        (fun m => m.id == aid)
      = (msgs.find? (fun m => m.id == aid)).map f := by
  induction msgs with
  | nil => rfl
  | cons m rest ih =>
    rw [List.map_cons]
    by_cases h : (m.id == aid) = true
    · rw [if_pos h,
        List.find?_cons_of_pos (p := fun (m : Message) => m.id == aid) _
          (show ((f m).id == aid) = true by rw [hf]; exact h),
        List.find?_cons_of_pos (p := fun (m : Message) => m.id == aid) _ h]
      rfl
    · rw [if_neg h, List.find?_cons_of_neg (p := fun (m : Message) => m.id == aid) _ h,
        List.find?_cons_of_neg (p := fun (m : Message) => m.id == aid) _ h, ih]

/-- `find?` on a list all of whose members miss the id, extended with one
matching message, returns that message. -/
theorem find?_append_fresh (aid : String) (l : List Message) (p : Message)
    (hl : ∀ m ∈ l, (m.id == aid) = false) (hp : (p.id == aid) = true) :
    (l ++ [p]).find? (fun m => m.id == aid) = some p := by
  rw [List.find?_append]
  have hnone : l.find? (fun m => m.id == aid) = none := by
    rw [List.find?_eq_none]
    intro m hm
    simp [hl m hm]
  simp [hnone, List.find?, hp]

theorem applyError_messages (aid e : String) (s : ChatState) :
    (applyError aid e s).messages
      = s.messages.map
          (fun m =>
            if m.id == aid then
              { m with
                content := if m.content == "" then "Error: " ++ e else m.content,
                isStreaming := false }
            else m) := rfl

theorem contentOf_applyToken (aid t : String) (msgs : List Message) :
    contentOf aid (applyToken aid t msgs)
      = (contentOf aid msgs).map (fun c => c ++ t) := by
  unfold contentOf applyToken
  rw [find?_map_guard aid (fun m => { m with content := m.content ++ t })
    (fun m => rfl)]
  cases msgs.find? (fun m => m.id == aid) <;> rfl

theorem streamingOf_applyToken (aid t : String) (msgs : List Message) :
    streamingOf aid (applyToken aid t msgs) = streamingOf aid msgs := by
  unfold streamingOf applyToken
  rw [find?_map_guard aid (fun m => { m with content := m.content ++ t })
    (fun m => rfl)]
  cases msgs.find? (fun m => m.id == aid) <;> rfl

theorem applyError_contentOf (aid e : String) (s : ChatState) :
    contentOf aid (applyError aid e s).messages
      = (contentOf aid s.messages).map
          (fun c => if c == "" then "Error: " ++ e else c) := by
  unfold contentOf
  rw [applyError_messages,
    find?_map_guard aid
      (fun m =>
        { m with
          content := if m.content == "" then "Error: " ++ e else m.content,
          isStreaming := false })
      (fun m => rfl)]
  cases s.messages.find? (fun m => m.id == aid) <;> rfl

theorem applyError_streamingOf (aid e : String) (s : ChatState) :
    streamingOf aid (applyError aid e s).messages
      = (streamingOf aid s.messages).map (fun _ => false) := by
  unfold streamingOf
  rw [applyError_messages,
    find?_map_guard aid
      (fun m =>
        { m with
          content := if m.content == "" then "Error: " ++ e else m.content,
          isStreaming := false })
      (fun m => rfl)]
  cases s.messages.find? (fun m => m.id == aid) <;> rfl

theorem applyDone_messages (aid : String) (ackOk : Bool) (s : ChatState) :
    (applyDone aid ackOk s).messages
      = s.messages.map
          (fun m => if m.id == aid then { m with isStreaming := false } else m) := by
  unfold applyDone
  dsimp only
  split
  · split <;> rfl
  · rfl

theorem applyDone_contentOf (aid : String) (ackOk : Bool) (s : ChatState) :
    contentOf aid (applyDone aid ackOk s).messages = contentOf aid s.messages := by
  unfold contentOf
  rw [applyDone_messages,
    find?_map_guard aid (fun m => { m with isStreaming := false }) (fun m => rfl)]
  cases s.messages.find? (fun m => m.id == aid) <;> rfl

theorem applyDone_streamingOf (aid : String) (ackOk : Bool) (s : ChatState) :
    streamingOf aid (applyDone aid ackOk s).messages
      = (streamingOf aid s.messages).map (fun _ => false) := by
  unfold streamingOf
  rw [applyDone_messages,
    find?_map_guard aid (fun m => { m with isStreaming := false }) (fun m => rfl)]
  cases s.messages.find? (fun m => m.id == aid) <;> rfl

theorem runCallbacks_append (aid : String) (ackOk : Bool)
    (l1 l2 : List ApiStream.Callback) (st : ChatState) :
    runCallbacks aid ackOk (l1 ++ l2) st
      = runCallbacks aid ackOk l2 (runCallbacks aid ackOk l1 st) := by
  induction l1 generalizing st with
  | nil => rfl
  | cons cb rest ih => simp [runCallbacks, ih]

theorem runCallbacks_tokens (aid : String) (ackOk : Bool) (ts : List String)
    (st : ChatState) :
    runCallbacks aid ackOk (ts.map ApiStream.Callback.onToken) st
      = { st with
          messages := ts.foldl (fun ms t => applyToken aid t ms) st.messages } := by
  induction ts generalizing st with
  | nil => rfl
  | cons t rest ih => simp [runCallbacks, ih]

theorem contentOf_foldl_tokens (aid : String) (ts : List String)
    (msgs : List Message) :
    contentOf aid (ts.foldl (fun ms t => applyToken aid t ms) msgs)
      = (contentOf aid msgs).map (fun c => c ++ concatTokens ts) := by
  induction ts generalizing msgs with
  | nil =>
    cases h : contentOf aid msgs <;> simp [h, concatTokens]
  | cons t rest ih =>
    rw [List.foldl_cons, ih, contentOf_applyToken]
    cases h : contentOf aid msgs <;>
      simp [h, concatTokens, String.append_assoc]

theorem streamingOf_foldl_tokens (aid : String) (ts : List String)
    (msgs : List Message) :
    streamingOf aid (ts.foldl (fun ms t => applyToken aid t ms) msgs)
      = streamingOf aid msgs := by
  induction ts generalizing msgs with
  | nil => rfl
  | cons t rest ih => rw [List.foldl_cons, ih, streamingOf_applyToken]

theorem applyDone_flags (aid : String) (ackOk : Bool) (s : ChatState) :
    (applyDone aid ackOk s).isGenerating = false
      ∧ (applyDone aid ackOk s).isWaitingForLogConfirmation = false := by
  unfold applyDone
  dsimp only
  split
  · split <;> exact ⟨rfl, rfl⟩
  · exact ⟨rfl, rfl⟩

theorem applyDone_images (aid : String) (ackOk : Bool) (s : ChatState) :
    (applyDone aid ackOk s).uploadedImages = s.uploadedImages
      ∧ (applyDone aid ackOk s).selectedImages = s.selectedImages := by
  unfold applyDone
  dsimp only
  split
  · split <;> exact ⟨rfl, rfl⟩
  · exact ⟨rfl, rfl⟩

/-- No callback ever touches the uploaded list or the selection list; only
the end of `handleSendMessage` clears the latter. -/
theorem runCallbacks_images (aid : String) (ackOk : Bool)
    (cbs : List ApiStream.Callback) (st : ChatState) :
    (runCallbacks aid ackOk cbs st).uploadedImages = st.uploadedImages
      ∧ (runCallbacks aid ackOk cbs st).selectedImages = st.selectedImages := by
  induction cbs generalizing st with
  | nil => exact ⟨rfl, rfl⟩
  | cons cb rest ih =>
    cases cb with
    | onStart => exact ih _
    | onToken t => exact ih _
    | onDone =>
      exact ⟨(ih (applyDone aid ackOk st)).1.trans (applyDone_images aid ackOk st).1,
        (ih (applyDone aid ackOk st)).2.trans (applyDone_images aid ackOk st).2⟩
    | onError e => exact ih _

/-- The error callback never issues the acknowledgment request, and token
and start callbacks do not either. -/
theorem runCallbacks_ack_free (aid : String) (ackOk : Bool)
    (cbs : List ApiStream.Callback) (st : ChatState)
    (h : ApiStream.Callback.onDone ∉ cbs) :
    (runCallbacks aid ackOk cbs st).ackRequested = st.ackRequested := by
  induction cbs generalizing st with
  | nil => rfl
  | cons cb rest ih =>
    rw [List.mem_cons] at h
    push_neg at h
    cases cb with
    | onStart => exact ih _ h.2
    | onToken t => exact ih _ h.2
    | onDone => exact absurd rfl h.1
    | onError e => exact ih _ h.2

end Chat

namespace ApiStream

theorem processLines_tokens_terminal (ts : List String) (last : SSELine)
    (cb : Callback)
    (hlast : processLines [last] = ([cb], true)) :
    processLines (ts.map SSELine.token ++ [last])
      = (ts.map Callback.onToken ++ [cb], true) := by
  induction ts with
  | nil => simpa using hlast
  | cons t rest ih => simp [processLines, ih]

theorem generateResponseStream_terminal (lines : List SSELine)
    (ending : StreamEnd)
    (h : (processLines lines).2 = true) :
    generateResponseStream true lines ending = (processLines lines).1 := by
  simp [generateResponseStream, h]

theorem generateResponseStream_exn (lines : List SSELine) (msg : String)
    (h : (processLines lines).2 = false) :
    generateResponseStream true lines (.exn msg)
      = (processLines lines).1 ++ [.onError msg] := by
  simp [generateResponseStream, h]

end ApiStream

namespace Chat

open ApiStream

/-- `sendMessageStart` with both guards passing, flattened. -/
theorem sendMessageStart_go (s : ChatState) (text : String)
    (imgs : List UploadedImage) (userId aid mid : String)
    (hguard : (Chat.trimString text == "" && imgs.isEmpty) = false)
    (hmodel : s.currentModelId = some mid) :
    sendMessageStart s text imgs userId aid
      = ({ s with
            messages :=
              (s.messages ++
                [{ id := userId, role := .user, content := text,
                   images := imgs.map (fun img => img.uploadedPath.getD ""),
                   isStreaming := false }]) ++
              [{ id := aid, role := .assistant, content := "", images := [],
                 isStreaming := true }],
            isGenerating := true,
            error := none,
            generationRequests := s.generationRequests + 1 }, true) := by
  unfold sendMessageStart
  rw [hmodel]
  simp [hguard]

/-- `handleSendMessage` with both guards passing, decomposed into the
request, the callback run, the `finally` block, and the selection reset. -/
theorem handleSendMessage_run (s : ChatState) (text : String)
    (imgs : List UploadedImage) (userId aid mid : String) (fetchOk : Bool)
    (lines : List SSELine) (ending : StreamEnd) (ackOk : Bool)
    (hguard : (Chat.trimString text == "" && imgs.isEmpty) = false)
    (hmodel : s.currentModelId = some mid) :
    handleSendMessage s text imgs userId aid fetchOk lines ending ackOk
      = (let s3 := runCallbacks aid ackOk
            (generateResponseStream fetchOk lines ending)
            (sendMessageStart s text imgs userId aid).1
         let s4 :=
           if s.isWaitingForLogConfirmation then
             { s3 with isGenerating := false, isWaitingForLogConfirmation := false }
           else s3
         { s4 with selectedImages := [] }) := by
  have h2 : (sendMessageStart s text imgs userId aid).2 = true := by
    rw [sendMessageStart_go s text imgs userId aid mid hguard hmodel]
  unfold handleSendMessage
  dsimp only
  rw [h2]
  rfl

/-- The `finally` block changes no message. -/
theorem finalize_messages (s3 : ChatState) (c : Bool) :
    (if c = true then
        { s3 with isGenerating := false, isWaitingForLogConfirmation := false }
      else s3).messages = s3.messages := by
  cases c <;> rfl

/-- Content of the freshly appended placeholder. -/
theorem contentOf_after_start (s : ChatState) (text : String)
    (imgs : List UploadedImage) (userId aid mid : String)
    (hguard : (Chat.trimString text == "" && imgs.isEmpty) = false)
    (hmodel : s.currentModelId = some mid)
    (hfresh : ∀ m ∈ s.messages, (m.id == aid) = false)
    (huid : (userId == aid) = false) :
    contentOf aid (sendMessageStart s text imgs userId aid).1.messages = some ""
      ∧ streamingOf aid (sendMessageStart s text imgs userId aid).1.messages
        = some true := by
  rw [sendMessageStart_go s text imgs userId aid mid hguard hmodel]
  have hfind := find?_append_fresh aid
    (s.messages ++
      [{ id := userId, role := .user, content := text,
         images := imgs.map (fun img => img.uploadedPath.getD ""),
         isStreaming := false }])
    { id := aid, role := .assistant, content := "", images := [],
      isStreaming := true }
    (by
      intro m hm
      rcases List.mem_append.mp hm with h | h
      · exact hfresh m h
      · rcases List.mem_singleton.mp h with rfl
        exact huid)
    (by simp)
  exact ⟨by rw [contentOf, hfind]; rfl, by rw [streamingOf, hfind]; rfl⟩

theorem runCallbacks_start (aid : String) (ackOk : Bool)
    (cbs : List ApiStream.Callback) (st : ChatState) :
    runCallbacks aid ackOk (ApiStream.Callback.onStart :: cbs) st
      = runCallbacks aid ackOk cbs st := rfl

theorem runCallbacks_done_single (aid : String) (ackOk : Bool)
    (st : ChatState) :
    runCallbacks aid ackOk [ApiStream.Callback.onDone] st
      = applyDone aid ackOk st := rfl

theorem runCallbacks_error_single (aid e : String) (ackOk : Bool)
    (st : ChatState) :
    runCallbacks aid ackOk [ApiStream.Callback.onError e] st
      = applyError aid e st := rfl

theorem finalize_error (s3 : ChatState) (c : Bool) :
    (if c = true then
        { s3 with isGenerating := false, isWaitingForLogConfirmation := false }
      else s3).error = s3.error := by
  cases c <;> rfl

theorem finalize_ackRequested (s3 : ChatState) (c : Bool) :
    (if c = true then
        { s3 with isGenerating := false, isWaitingForLogConfirmation := false }
      else s3).ackRequested = s3.ackRequested := by
  cases c <;> rfl

theorem finalize_isGenerating (s3 : ChatState) (c : Bool)
    (h : s3.isGenerating = false) :
    (if c = true then
        { s3 with isGenerating := false, isWaitingForLogConfirmation := false }
      else s3).isGenerating = false := by
  cases c with
  | false => exact h
  | true => rfl

theorem finalize_isWaiting (s3 : ChatState) (c : Bool)
    (h : s3.isWaitingForLogConfirmation = false) :
    (if c = true then
        { s3 with isGenerating := false, isWaitingForLogConfirmation := false }
      else s3).isWaitingForLogConfirmation = false := by
  cases c with
  | false => exact h
  | true => rfl

theorem finalize_uploadedImages (s3 : ChatState) (c : Bool) :
    (if c = true then
        { s3 with isGenerating := false, isWaitingForLogConfirmation := false }
      else s3).uploadedImages = s3.uploadedImages := by
  cases c <;> rfl

theorem applyError_fields (aid e : String) (st : ChatState) :
    (applyError aid e st).isGenerating = false
      ∧ (applyError aid e st).isWaitingForLogConfirmation = false
      ∧ (applyError aid e st).error
          = some "Failed to generate response. Please try again."
      ∧ (applyError aid e st).ackRequested = st.ackRequested :=
  ⟨rfl, rfl, rfl, rfl⟩

end Chat

/-- C1: for every sequence of `token` events delivered on one generation
stream, the final content of the placeholder assistant message (the message
whose id is the turn's `assistantMessageId`) equals the exact concatenation
of the token fragments in arrival order — no reordering, dropping or
deduplication. -/
theorem token_stream_appends_in_order
    (s : Chat.ChatState) (text : String) (imgs : List Chat.UploadedImage)
    (userId aid mid : String) (ts : List String) (ackOk : Bool)
    (hguard : (Chat.trimString text == "" && imgs.isEmpty) = false)
    (hmodel : s.currentModelId = some mid)
    (hfresh : ∀ m ∈ s.messages, (m.id == aid) = false)
    (huid : (userId == aid) = false) :
    Chat.contentOf aid
      (Chat.handleSendMessage s text imgs userId aid true
        (ApiStream.SSELine.startEvt ::
          (ts.map ApiStream.SSELine.token ++ [ApiStream.SSELine.doneEvt]))
        ApiStream.StreamEnd.cleanEof ackOk).messages
      = some (Chat.concatTokens ts) := by
  open ApiStream Chat in
  have hpl : processLines (ts.map SSELine.token ++ [SSELine.doneEvt])
      = (ts.map Callback.onToken ++ [Callback.onDone], true) :=
    processLines_tokens_terminal ts _ _ rfl
  have hlines : processLines
      (SSELine.startEvt :: (ts.map SSELine.token ++ [SSELine.doneEvt]))
      = (Callback.onStart :: (ts.map Callback.onToken ++ [Callback.onDone]),
         true) := by
    simp [processLines, hpl]
  have hcbs : generateResponseStream true
      (SSELine.startEvt :: (ts.map SSELine.token ++ [SSELine.doneEvt]))
      StreamEnd.cleanEof
      = Callback.onStart :: (ts.map Callback.onToken ++ [Callback.onDone]) := by
    rw [generateResponseStream_terminal _ _ (by rw [hlines]), hlines]
  rw [handleSendMessage_run s text imgs userId aid mid true _ _ ackOk hguard hmodel]
  dsimp only
  rw [finalize_messages, hcbs, runCallbacks_start]
  rw [show ts.map Callback.onToken ++ [Callback.onDone]
      = (ts.map Callback.onToken) ++ [Callback.onDone] from rfl]
  rw [runCallbacks_append, runCallbacks_tokens, runCallbacks_done_single,
    applyDone_contentOf]
  dsimp only
  rw [contentOf_foldl_tokens,
    (contentOf_after_start s text imgs userId aid mid hguard hmodel hfresh huid).1]
  simp [String.empty_append]

/-- C2: after a `done` terminal event, whether the acknowledgment request
succeeds or fails, and whether or not the placeholder message is found, the
controller returns to the unlocked idle state: both `isGenerating` and
`isWaitingForLogConfirmation` end up `false` in every branch of the
`onDone` callback. -/
theorem ack_always_unlocks (aid : String) (ackOk : Bool) (s : Chat.ChatState) :
    (Chat.applyDone aid ackOk s).isGenerating = false
      ∧ (Chat.applyDone aid ackOk s).isWaitingForLogConfirmation = false :=
  Chat.applyDone_flags aid ackOk s

/-- Witness for C1: the spec scenario — tokens `"A "`, `"cat."`, `""`
followed by `done` produce final content `"A cat."`. -/
theorem token_stream_appends_in_order_witness :
    Chat.contentOf "a"
      (Chat.handleSendMessage
        { messages := [], uploadedImages := [], selectedImages := [],
          isGenerating := false, isWaitingForLogConfirmation := false,
          isConnected := true, error := none, currentModelId := some "m",
          generationRequests := 0, ackRequested := false }
        "describe this" [] "u" "a" true
        (ApiStream.SSELine.startEvt ::
          (["A ", "cat.", ""].map ApiStream.SSELine.token ++
            [ApiStream.SSELine.doneEvt]))
        ApiStream.StreamEnd.cleanEof true).messages
      = some "A cat." := by
  have h := token_stream_appends_in_order
    { messages := [], uploadedImages := [], selectedImages := [],
      isGenerating := false, isWaitingForLogConfirmation := false,
      isConnected := true, error := none, currentModelId := some "m",
      generationRequests := 0, ackRequested := false }
    "describe this" [] "u" "a" "m" ["A ", "cat.", ""] true
    (by decide) rfl (by intro m hm; exact absurd hm (List.not_mem_nil m))
    (by decide)
  exact h.trans (by decide)

/-- C3: on an `error` terminal event the placeholder stops streaming, its
content becomes the error text exactly when it is still empty (non-empty
partial content is preserved), a global error is surfaced, both lock flags
are `false`, and the acknowledgment phase is never entered. -/
theorem error_event_short_circuits
    (s : Chat.ChatState) (text : String) (imgs : List Chat.UploadedImage)
    (userId aid mid e : String) (ts : List String) (ackOk : Bool)
    (hguard : (Chat.trimString text == "" && imgs.isEmpty) = false)
    (hmodel : s.currentModelId = some mid)
    (hfresh : ∀ m ∈ s.messages, (m.id == aid) = false)
    (huid : (userId == aid) = false)
    (hack : s.ackRequested = false) :
    Chat.contentOf aid
        (Chat.handleSendMessage s text imgs userId aid true
          (ApiStream.SSELine.startEvt ::
            (ts.map ApiStream.SSELine.token ++ [ApiStream.SSELine.errorEvt e]))
          ApiStream.StreamEnd.cleanEof ackOk).messages
      = some (if Chat.concatTokens ts == "" then "Error: " ++ e
              else Chat.concatTokens ts)
    ∧ Chat.streamingOf aid
        (Chat.handleSendMessage s text imgs userId aid true
          (ApiStream.SSELine.startEvt ::
            (ts.map ApiStream.SSELine.token ++ [ApiStream.SSELine.errorEvt e]))
          ApiStream.StreamEnd.cleanEof ackOk).messages
      = some false
    ∧ (Chat.handleSendMessage s text imgs userId aid true
          (ApiStream.SSELine.startEvt ::
            (ts.map ApiStream.SSELine.token ++ [ApiStream.SSELine.errorEvt e]))
          ApiStream.StreamEnd.cleanEof ackOk).error
      = some "Failed to generate response. Please try again."
    ∧ (Chat.handleSendMessage s text imgs userId aid true
          (ApiStream.SSELine.startEvt ::
            (ts.map ApiStream.SSELine.token ++ [ApiStream.SSELine.errorEvt e]))
          ApiStream.StreamEnd.cleanEof ackOk).isGenerating = false
    ∧ (Chat.handleSendMessage s text imgs userId aid true
          (ApiStream.SSELine.startEvt ::
            (ts.map ApiStream.SSELine.token ++ [ApiStream.SSELine.errorEvt e]))
          ApiStream.StreamEnd.cleanEof ackOk).isWaitingForLogConfirmation
      = false
    ∧ (Chat.handleSendMessage s text imgs userId aid true
          (ApiStream.SSELine.startEvt ::
            (ts.map ApiStream.SSELine.token ++ [ApiStream.SSELine.errorEvt e]))
          ApiStream.StreamEnd.cleanEof ackOk).ackRequested = false := by
  open ApiStream Chat in
  have hpl : processLines (ts.map SSELine.token ++ [SSELine.errorEvt e])
      = (ts.map Callback.onToken ++ [Callback.onError e], true) :=
    processLines_tokens_terminal ts _ _ rfl
  have hlines : processLines
      (SSELine.startEvt :: (ts.map SSELine.token ++ [SSELine.errorEvt e]))
      = (Callback.onStart :: (ts.map Callback.onToken ++ [Callback.onError e]),
         true) := by
    simp [processLines, hpl]
  have hcbs : generateResponseStream true
      (SSELine.startEvt :: (ts.map SSELine.token ++ [SSELine.errorEvt e]))
      StreamEnd.cleanEof
      = Callback.onStart :: (ts.map Callback.onToken ++ [Callback.onError e]) := by
    rw [generateResponseStream_terminal _ _ (by rw [hlines]), hlines]
  rw [handleSendMessage_run s text imgs userId aid mid true _ _ ackOk hguard hmodel]
  dsimp only
  rw [hcbs, runCallbacks_start, runCallbacks_append, runCallbacks_tokens,
    runCallbacks_error_single]
  obtain ⟨hc, hs⟩ :=
    contentOf_after_start s text imgs userId aid mid hguard hmodel hfresh huid
  refine ⟨?_, ?_, ?_, ?_, ?_, ?_⟩
  · rw [finalize_messages, applyError_contentOf]
    dsimp only
    rw [contentOf_foldl_tokens, hc]
    simp [String.empty_append]
  · rw [finalize_messages, applyError_streamingOf]
    dsimp only
    rw [streamingOf_foldl_tokens, hs]
    rfl
  · rw [finalize_error]
    exact (applyError_fields aid e _).2.2.1
  · exact finalize_isGenerating _ _ (applyError_fields aid e _).1
  · exact finalize_isWaiting _ _ (applyError_fields aid e _).2.1
  · rw [finalize_ackRequested, (applyError_fields aid e _).2.2.2]
    rw [show ({ (sendMessageStart s text imgs userId aid).1 with
        messages := ts.foldl (fun ms t => applyToken aid t ms)
          (sendMessageStart s text imgs userId aid).1.messages } :
        ChatState).ackRequested
      = (sendMessageStart s text imgs userId aid).1.ackRequested from rfl]
    rw [sendMessageStart_go s text imgs userId aid mid hguard hmodel]
    exact hack

/-- Witness for C3: the spec scenario — `start` then `error("OOM")` with
zero tokens yields content `"Error: OOM"`, both locks released, no
acknowledgment phase. -/
theorem error_event_short_circuits_witness :
    Chat.contentOf "a"
      (Chat.handleSendMessage
        { messages := [], uploadedImages := [], selectedImages := [],
          isGenerating := false, isWaitingForLogConfirmation := false,
          isConnected := true, error := none, currentModelId := some "m",
          generationRequests := 0, ackRequested := false }
        "hi" [] "u" "a" true
        (ApiStream.SSELine.startEvt ::
          (([] : List String).map ApiStream.SSELine.token ++
            [ApiStream.SSELine.errorEvt "OOM"]))
        ApiStream.StreamEnd.cleanEof true).messages
      = some "Error: OOM"
    ∧ (Chat.handleSendMessage
        { messages := [], uploadedImages := [], selectedImages := [],
          isGenerating := false, isWaitingForLogConfirmation := false,
          isConnected := true, error := none, currentModelId := some "m",
          generationRequests := 0, ackRequested := false }
        "hi" [] "u" "a" true
        (ApiStream.SSELine.startEvt ::
          (([] : List String).map ApiStream.SSELine.token ++
            [ApiStream.SSELine.errorEvt "OOM"]))
        ApiStream.StreamEnd.cleanEof true).isGenerating = false
    ∧ (Chat.handleSendMessage
        { messages := [], uploadedImages := [], selectedImages := [],
          isGenerating := false, isWaitingForLogConfirmation := false,
          isConnected := true, error := none, currentModelId := some "m",
          generationRequests := 0, ackRequested := false }
        "hi" [] "u" "a" true
        (ApiStream.SSELine.startEvt ::
          (([] : List String).map ApiStream.SSELine.token ++
            [ApiStream.SSELine.errorEvt "OOM"]))
        ApiStream.StreamEnd.cleanEof true).ackRequested = false := by
  have h := error_event_short_circuits
    { messages := [], uploadedImages := [], selectedImages := [],
      isGenerating := false, isWaitingForLogConfirmation := false,
      isConnected := true, error := none, currentModelId := some "m",
      generationRequests := 0, ackRequested := false }
    "hi" [] "u" "a" "m" "OOM" [] true
    (by decide) rfl (by intro m hm; exact absurd hm (List.not_mem_nil m))
    (by decide) rfl
  exact ⟨h.1.trans (by decide), h.2.2.2.1, h.2.2.2.2.2⟩


/-- C4 (amended): when the streaming request or read fails with an
exception before any terminal event line was seen, the turn terminates
through the `onError` path: both lock flags end `false` and the global
error is surfaced. (A clean end-of-stream without a terminal event, by
contrast, invokes no terminal callback at all — see the counterexample.) -/
theorem stream_exception_runs_error_path
    (s : Chat.ChatState) (text : String) (imgs : List Chat.UploadedImage)
    (userId aid mid msg : String) (lines : List ApiStream.SSELine)
    (ackOk : Bool)
    (hguard : (Chat.trimString text == "" && imgs.isEmpty) = false)
    (hmodel : s.currentModelId = some mid)
    (hnoterm : (ApiStream.processLines lines).2 = false) :
    (Chat.handleSendMessage s text imgs userId aid true lines
        (ApiStream.StreamEnd.exn msg) ackOk).isGenerating = false
    ∧ (Chat.handleSendMessage s text imgs userId aid true lines
        (ApiStream.StreamEnd.exn msg) ackOk).isWaitingForLogConfirmation
      = false
    ∧ (Chat.handleSendMessage s text imgs userId aid true lines
        (ApiStream.StreamEnd.exn msg) ackOk).error
      = some "Failed to generate response. Please try again." := by
  open ApiStream Chat in
  rw [handleSendMessage_run s text imgs userId aid mid true _ _ ackOk hguard hmodel]
  dsimp only
  rw [generateResponseStream_exn lines msg hnoterm, runCallbacks_append,
    runCallbacks_error_single]
  exact ⟨finalize_isGenerating _ _ (applyError_fields aid msg _).1,
    finalize_isWaiting _ _ (applyError_fields aid msg _).2.1,
    (finalize_error _ _).trans (applyError_fields aid msg _).2.2.1⟩

/-- Witness for C4 (amended): a concrete dropped connection (read
exception after `start` and one token) releases the locks and surfaces the
error. -/
theorem stream_exception_runs_error_path_witness :
    (Chat.handleSendMessage
      { messages := [], uploadedImages := [], selectedImages := [],
        isGenerating := false, isWaitingForLogConfirmation := false,
        isConnected := true, error := none, currentModelId := some "m",
        generationRequests := 0, ackRequested := false }
      "hi" [] "u" "a" true
      [ApiStream.SSELine.startEvt, ApiStream.SSELine.token "x"]
      (ApiStream.StreamEnd.exn "network error") true).isGenerating = false := by
  have h := stream_exception_runs_error_path
    { messages := [], uploadedImages := [], selectedImages := [],
      isGenerating := false, isWaitingForLogConfirmation := false,
      isConnected := true, error := none, currentModelId := some "m",
      generationRequests := 0, ackRequested := false }
    "hi" [] "u" "a" "m" "network error"
    [ApiStream.SSELine.startEvt, ApiStream.SSELine.token "x"] true
    (by decide) rfl (by decide)
  exact h.1

/-- Counterexample for C4: a stream that ends cleanly without any terminal
event (`start` only, then end-of-stream) does NOT run the error path: the
controller keeps `isGenerating = true`, the placeholder keeps streaming,
and no error is surfaced — the claim that such a turn is terminated as if
an `error` event had been received is false. -/
theorem stream_clean_eof_hangs_counterexample :
    (Chat.handleSendMessage
        { messages := [], uploadedImages := [], selectedImages := [],
          isGenerating := false, isWaitingForLogConfirmation := false,
          isConnected := true, error := none, currentModelId := some "m",
          generationRequests := 0, ackRequested := false }
        "hi" [] "u" "a" true [ApiStream.SSELine.startEvt]
        ApiStream.StreamEnd.cleanEof true).isGenerating = true
    ∧ Chat.streamingOf "a"
        (Chat.handleSendMessage
          { messages := [], uploadedImages := [], selectedImages := [],
            isGenerating := false, isWaitingForLogConfirmation := false,
            isConnected := true, error := none, currentModelId := some "m",
            generationRequests := 0, ackRequested := false }
          "hi" [] "u" "a" true [ApiStream.SSELine.startEvt]
          ApiStream.StreamEnd.cleanEof true).messages = some true
    ∧ (Chat.handleSendMessage
        { messages := [], uploadedImages := [], selectedImages := [],
          isGenerating := false, isWaitingForLogConfirmation := false,
          isConnected := true, error := none, currentModelId := some "m",
          generationRequests := 0, ackRequested := false }
        "hi" [] "u" "a" true [ApiStream.SSELine.startEvt]
        ApiStream.StreamEnd.cleanEof true).error = none := by
  decide

/-- C5 (amended): while the lock is held (`isGenerating`,
`isWaitingForLogConfirmation`, or the input's `disabled` flag), a submit is
rejected synchronously before `onSendMessage` runs, so the composed state —
message log included — is untouched; and no model switch can begin while a
generation is in progress (the selector is disabled). The other exclusion
direction fails: a generation can begin while a switch is in flight — see
the counterexample. -/
theorem lock_rejects_submit_and_switch
    (u : UI.UIState) (message userId aid modelId : String) :
    ((u.chat.isGenerating
        || (!u.chat.isConnected || u.chat.currentModelId.isNone)
        || u.chat.isWaitingForLogConfirmation) = true →
      UI.uiSubmit u message userId aid = u)
    ∧ (u.chat.isGenerating = true → UI.uiSwitchStart u modelId = u) := by
  constructor
  · intro h
    unfold UI.uiSubmit
    dsimp only
    have hnone : Input.handleSubmit message u.chat.selectedImages
        u.chat.isGenerating (!u.chat.isConnected || u.chat.currentModelId.isNone)
        u.chat.isWaitingForLogConfirmation = none := by
      unfold Input.handleSubmit
      rw [if_pos]
      simp only [Bool.or_eq_true] at h ⊢
      tauto
    rw [hnone]
  · intro h
    unfold UI.uiSwitchStart
    rw [if_pos]
    simp [h]

/-- Witness for C5 (amended): with the generation flag raised, a concrete
submit and a concrete switch click are both no-ops. -/
theorem lock_rejects_submit_and_switch_witness :
    UI.uiSubmit
        { chat :=
            { messages := [], uploadedImages := [], selectedImages := [],
              isGenerating := true, isWaitingForLogConfirmation := false,
              isConnected := true, error := none, currentModelId := some "a",
              generationRequests := 0, ackRequested := false },
          selector :=
            { currentModelId := some "a", isSwitching := false,
              isTaskRunning := false, switchError := none, loadError := none },
          isAudioLoading := false } "hi" "u" "a2"
      = { chat :=
            { messages := [], uploadedImages := [], selectedImages := [],
              isGenerating := true, isWaitingForLogConfirmation := false,
              isConnected := true, error := none, currentModelId := some "a",
              generationRequests := 0, ackRequested := false },
          selector :=
            { currentModelId := some "a", isSwitching := false,
              isTaskRunning := false, switchError := none, loadError := none },
          isAudioLoading := false }
    ∧ UI.uiSwitchStart
        { chat :=
            { messages := [], uploadedImages := [], selectedImages := [],
              isGenerating := true, isWaitingForLogConfirmation := false,
              isConnected := true, error := none, currentModelId := some "a",
              generationRequests := 0, ackRequested := false },
          selector :=
            { currentModelId := some "a", isSwitching := false,
              isTaskRunning := false, switchError := none, loadError := none },
          isAudioLoading := false } "b"
      = { chat :=
            { messages := [], uploadedImages := [], selectedImages := [],
              isGenerating := true, isWaitingForLogConfirmation := false,
              isConnected := true, error := none, currentModelId := some "a",
              generationRequests := 0, ackRequested := false },
          selector :=
            { currentModelId := some "a", isSwitching := false,
              isTaskRunning := false, switchError := none, loadError := none },
          isAudioLoading := false } :=
  ⟨(lock_rejects_submit_and_switch _ "hi" "u" "a2" "b").1 (by decide),
   (lock_rejects_submit_and_switch _ "hi" "u" "a2" "b").2 (by decide)⟩

/-- Counterexample for C5: a submit is accepted while a model switch is in
flight, reaching a state where `isSwitching` and `isGenerating` are both
true — "at most one of {generating, switching}" does not hold, because the
message input's `disabled` flag does not include the selector's switching
state. -/
theorem generation_during_switch_counterexample :
    (UI.uiSubmit
      (UI.uiSwitchStart
        { chat :=
            { messages := [], uploadedImages := [], selectedImages := [],
              isGenerating := false, isWaitingForLogConfirmation := false,
              isConnected := true, error := none, currentModelId := some "a",
              generationRequests := 0, ackRequested := false },
          selector :=
            { currentModelId := some "a", isSwitching := false,
              isTaskRunning := false, switchError := none, loadError := none },
          isAudioLoading := false } "b")
      "hi" "u" "a2").selector.isSwitching = true
    ∧ (UI.uiSubmit
        (UI.uiSwitchStart
          { chat :=
              { messages := [], uploadedImages := [], selectedImages := [],
                isGenerating := false, isWaitingForLogConfirmation := false,
                isConnected := true, error := none, currentModelId := some "a",
                generationRequests := 0, ackRequested := false },
            selector :=
              { currentModelId := some "a", isSwitching := false,
                isTaskRunning := false, switchError := none, loadError := none },
            isAudioLoading := false } "b")
        "hi" "u" "a2").chat.isGenerating = true := by
  decide

/-- C6: a model switch attempt that is rejected or fails leaves
`currentModelId` unchanged: the guard (switch in progress or task running)
returns with no side effect, and on a failed `switchModel` request the
switching flag resets and `switchError` is surfaced while `currentModelId`
keeps its prior value — it is assigned only on success. -/
theorem switch_failure_no_partial_state
    (s : Selector.MSState) (modelId msg : String)
    (outcome : Selector.SwitchOutcome) :
    (s.isSwitching = true ∨ s.isTaskRunning = true →
      Selector.handleModelSwitch s modelId outcome = s)
    ∧ (Selector.handleModelSwitch s modelId
        (Selector.SwitchOutcome.failure msg)).currentModelId
      = s.currentModelId
    ∧ ((some modelId == s.currentModelId || s.isSwitching || s.isTaskRunning)
          = false →
        (Selector.handleModelSwitch s modelId
            (Selector.SwitchOutcome.failure msg)).isSwitching = false
        ∧ (Selector.handleModelSwitch s modelId
            (Selector.SwitchOutcome.failure msg)).switchError = some msg) := by
  refine ⟨?_, ?_, ?_⟩
  · intro h
    unfold Selector.handleModelSwitch
    rw [if_pos]
    rcases h with h | h <;> simp [h]
  · unfold Selector.handleModelSwitch
    split
    · rfl
    · rfl
  · intro h
    unfold Selector.handleModelSwitch
    rw [if_neg (by simp [h])]
    exact ⟨rfl, rfl⟩

/-- Witness for C6: a concrete rejected switch (task running) is a no-op,
and a concrete failed switch surfaces the error with the current model
untouched. -/
theorem switch_failure_no_partial_state_witness :
    Selector.handleModelSwitch
        { currentModelId := some "a", isSwitching := false,
          isTaskRunning := true, switchError := none, loadError := none }
        "b" (Selector.SwitchOutcome.failure "boom")
      = { currentModelId := some "a", isSwitching := false,
          isTaskRunning := true, switchError := none, loadError := none }
    ∧ (Selector.handleModelSwitch
        { currentModelId := some "a", isSwitching := false,
          isTaskRunning := false, switchError := none, loadError := none }
        "b" (Selector.SwitchOutcome.failure "boom")).isSwitching = false
    ∧ (Selector.handleModelSwitch
        { currentModelId := some "a", isSwitching := false,
          isTaskRunning := false, switchError := none, loadError := none }
        "b" (Selector.SwitchOutcome.failure "boom")).switchError
      = some "boom" :=
  ⟨(switch_failure_no_partial_state
      { currentModelId := some "a", isSwitching := false,
        isTaskRunning := true, switchError := none, loadError := none }
      "b" "boom" (Selector.SwitchOutcome.failure "boom")).1 (Or.inr rfl),
   ((switch_failure_no_partial_state
      { currentModelId := some "a", isSwitching := false,
        isTaskRunning := false, switchError := none, loadError := none }
      "b" "boom" (Selector.SwitchOutcome.failure "boom")).2.2 (by decide)).1,
   ((switch_failure_no_partial_state
      { currentModelId := some "a", isSwitching := false,
        isTaskRunning := false, switchError := none, loadError := none }
      "b" "boom" (Selector.SwitchOutcome.failure "boom")).2.2 (by decide)).2⟩

/-- C7 (amended): a malformed payload, a non-`data:` line, or a parsed
payload with an unrecognised event type does not terminate the turn: the
line is skipped (the parse failure is only logged) and processing continues
with the following lines. -/
theorem malformed_and_unknown_lines_skipped
    (rest : List ApiStream.SSELine) (es : List ApiStream.ExtraLine) :
    ApiStream.processLines (ApiStream.SSELine.malformed :: rest)
        = ApiStream.processLines rest
    ∧ ApiStream.processLines (ApiStream.SSELine.noData :: rest)
        = ApiStream.processLines rest
    ∧ ApiStream.processLines
          (ApiStream.eraseOther (ApiStream.ExtraLine.other :: es))
        = ApiStream.processLines (ApiStream.eraseOther es) :=
  ⟨rfl, rfl, rfl⟩

/-- Counterexample for C7: a malformed line followed by a token and `done`
does not terminate the turn as an error — the token and the `done` are
still delivered and no `onError` is invoked. -/
theorem malformed_line_not_terminal_counterexample :
    ApiStream.generateResponseStream true
        [ApiStream.SSELine.malformed, ApiStream.SSELine.token "x",
          ApiStream.SSELine.doneEvt] ApiStream.StreamEnd.cleanEof
      = [ApiStream.Callback.onToken "x", ApiStream.Callback.onDone] := by
  decide

/-- Counterexample for C8: in `ChatInterface.handleRemoveImage`
(src/unnamed/part_002) the revoke is unconditional, so triggering removal
of the same asset twice releases its object URL twice — not exactly once as
claimed. -/
theorem remove_image_double_revoke_counterexample :
    (Assets.handleRemoveImage
        (Assets.handleRemoveImage
          { uploadedImages :=
              [{ id := "i1", url := "blob:1", uploadedPath := some "p1",
                 isUploading := false, uploadError := none }],
            selectedImages :=
              [{ id := "i1", url := "blob:1", uploadedPath := some "p1",
                 isUploading := false, uploadError := none }],
            revoked := [] }
          { id := "i1", url := "blob:1", uploadedPath := some "p1",
            isUploading := false, uploadError := none })
        { id := "i1", url := "blob:1", uploadedPath := some "p1",
          isUploading := false, uploadError := none }).revoked
      = ["blob:1", "blob:1"] := by
  decide

namespace Assets

open Chat (UploadedImage)

theorem simpleHandleRemoveImage_uploaded (s : ImgState) (imageId : String)
    (ok : Bool) :
    (simpleHandleRemoveImage s imageId ok).uploadedImages
      = s.uploadedImages.filter (fun img => img.id != imageId) := by
  unfold simpleHandleRemoveImage
  dsimp only
  split
  · split
    · split <;> rfl
    · rfl
  · rfl

theorem simpleHandleRemoveImage_selected (s : ImgState) (imageId : String)
    (ok : Bool) :
    (simpleHandleRemoveImage s imageId ok).selectedImages
      = s.selectedImages.filter (fun img => img.id != imageId) := by
  unfold simpleHandleRemoveImage
  dsimp only
  split
  · split
    · split <;> rfl
    · rfl
  · rfl

theorem simpleHandleRemoveImage_revoked (s : ImgState) (imageId : String)
    (ok : Bool) :
    (simpleHandleRemoveImage s imageId ok).revoked
      = (match s.uploadedImages.find? (fun img => img.id == imageId) with
         | some img => s.revoked ++ [img.url]
         | none => s.revoked) := by
  unfold simpleHandleRemoveImage
  dsimp only
  split
  · split
    · split <;> rfl
    · rfl
  · rfl

theorem filter_ne_find?_none (l : List UploadedImage) (rid : String) :
    (l.filter (fun img => img.id != rid)).find? (fun img => img.id == rid)
      = none := by
  rw [List.find?_eq_none]
  intro img hmem
  have h := (List.mem_filter.mp hmem).2
  simp only [bne_iff_ne, ne_eq] at h
  simp [h]

theorem filter_ne_filter_eq_nil (l : List UploadedImage) (rid : String) :
    (l.filter (fun img => img.id != rid)).filter (fun img => img.id == rid)
      = [] := by
  rw [List.filter_eq_nil_iff]
  intro img hmem
  have h := (List.mem_filter.mp hmem).2
  simp only [bne_iff_ne, ne_eq] at h
  simp [h]

end Assets

/-- C8 (amended): local removal always evicts the asset from both the
uploaded list and the selection set, and in the `SimpleChatInterface`
variant the outcome is independent of the remote delete's success or
failure and a second sequential removal of the same id revokes nothing
further (the lookup fails, so the preview resource of a present asset is
released exactly once across sequential repeats). In the `ChatInterface`
variant each trigger revokes unconditionally — once per call, hence twice
on a double trigger (see the counterexample). -/
theorem remove_image_amended (s : Assets.ImgState) (rid : String)
    (ok ok' : Bool) (img : Chat.UploadedImage) :
    (Assets.simpleHandleRemoveImage
        (Assets.simpleHandleRemoveImage s rid ok) rid ok').revoked
      = (Assets.simpleHandleRemoveImage s rid ok).revoked
    ∧ Assets.simpleHandleRemoveImage s rid ok
      = Assets.simpleHandleRemoveImage s rid true
    ∧ (Assets.simpleHandleRemoveImage s rid ok).uploadedImages.filter
        (fun i => i.id == rid) = []
    ∧ (Assets.simpleHandleRemoveImage s rid ok).selectedImages.filter
        (fun i => i.id == rid) = []
    ∧ (Assets.handleRemoveImage s img).uploadedImages.filter
        (fun i => i.id == img.id) = []
    ∧ (Assets.handleRemoveImage s img).selectedImages.filter
        (fun i => i.id == img.id) = []
    ∧ (Assets.handleRemoveImage s img).revoked = s.revoked ++ [img.url] := by
  refine ⟨?_, ?_, ?_, ?_, ?_, ?_, rfl⟩
  · rw [Assets.simpleHandleRemoveImage_revoked,
      Assets.simpleHandleRemoveImage_uploaded,
      Assets.filter_ne_find?_none]
  · unfold Assets.simpleHandleRemoveImage
    dsimp only
    split
    · split
      · split <;> rfl
      · rfl
    · rfl
  · rw [Assets.simpleHandleRemoveImage_uploaded,
      Assets.filter_ne_filter_eq_nil]
  · rw [Assets.simpleHandleRemoveImage_selected,
      Assets.filter_ne_filter_eq_nil]
  · exact Assets.filter_ne_filter_eq_nil s.uploadedImages img.id
  · exact Assets.filter_ne_filter_eq_nil s.selectedImages img.id

/-- C9: a send whose text is empty or whitespace-only and whose attached
image list is empty is rejected before any side effect: `handleSendMessage`
leaves the whole controller state (message log, lock flags, request
counter) untouched, and `MessageInput.handleSubmit` never invokes
`onSendMessage`. -/
theorem empty_input_no_side_effect
    (s : Chat.ChatState) (text userId aid : String) (fetchOk : Bool)
    (lines : List ApiStream.SSELine) (ending : ApiStream.StreamEnd)
    (ackOk : Bool) (g d w : Bool)
    (htext : (Chat.trimString text == "") = true) :
    Chat.handleSendMessage s text [] userId aid fetchOk lines ending ackOk = s
    ∧ Input.handleSubmit text [] g d w = none := by
  constructor
  · unfold Chat.handleSendMessage Chat.sendMessageStart
    rw [htext]
    rfl
  · unfold Input.handleSubmit
    rw [if_pos]
    simp [htext]

/-- Witness for C9: a whitespace-only message with no images leaves a
concrete state untouched and the submit handler rejects it. -/
theorem empty_input_no_side_effect_witness :
    Chat.handleSendMessage
        { messages := [], uploadedImages := [], selectedImages := [],
          isGenerating := false, isWaitingForLogConfirmation := false,
          isConnected := true, error := none, currentModelId := some "m",
          generationRequests := 0, ackRequested := false }
        "   " [] "u" "a" true [ApiStream.SSELine.startEvt]
        ApiStream.StreamEnd.cleanEof true
      = { messages := [], uploadedImages := [], selectedImages := [],
          isGenerating := false, isWaitingForLogConfirmation := false,
          isConnected := true, error := none, currentModelId := some "m",
          generationRequests := 0, ackRequested := false }
    ∧ Input.handleSubmit "   " [] false false false = none :=
  empty_input_no_side_effect
    { messages := [], uploadedImages := [], selectedImages := [],
      isGenerating := false, isWaitingForLogConfirmation := false,
      isConnected := true, error := none, currentModelId := some "m",
      generationRequests := 0, ackRequested := false }
    "   " "u" "a" true [ApiStream.SSELine.startEvt]
    ApiStream.StreamEnd.cleanEof true false false false (by decide)

/-- C10: every send that passes the guards clears the selected-images set
— whatever the stream outcome and acknowledgment result — while the
uploaded-images list is left unchanged; the same holds for the
non-streaming `handleSendMessage` of src/unnamed/part_001, whatever the
generate request's outcome. -/
theorem send_clears_selection_keeps_uploads
    (s : Chat.ChatState) (ls : Simple.SimpleState) (text : String)
    (imgs : List Chat.UploadedImage) (userId aid mid : String)
    (fetchOk : Bool) (lines : List ApiStream.SSELine)
    (ending : ApiStream.StreamEnd) (ackOk : Bool)
    (outcome : Except String String)
    (hguard : (Chat.trimString text == "" && imgs.isEmpty) = false)
    (hmodel : s.currentModelId = some mid) :
    (Chat.handleSendMessage s text imgs userId aid fetchOk lines ending
        ackOk).selectedImages = []
    ∧ (Chat.handleSendMessage s text imgs userId aid fetchOk lines ending
        ackOk).uploadedImages = s.uploadedImages
    ∧ (Simple.legacyHandleSendMessage ls text imgs userId aid
        outcome).selectedImages = []
    ∧ (Simple.legacyHandleSendMessage ls text imgs userId aid
        outcome).uploadedImages = ls.uploadedImages := by
  open Chat in
  refine ⟨?_, ?_, ?_, ?_⟩
  · rw [handleSendMessage_run s text imgs userId aid mid fetchOk lines ending
      ackOk hguard hmodel]
  · rw [handleSendMessage_run s text imgs userId aid mid fetchOk lines ending
      ackOk hguard hmodel]
    dsimp only
    rw [finalize_uploadedImages,
      (runCallbacks_images aid ackOk _ _).1,
      sendMessageStart_go s text imgs userId aid mid hguard hmodel]
  · unfold Simple.legacyHandleSendMessage
    rw [if_neg (by simp [hguard])]
  · unfold Simple.legacyHandleSendMessage
    rw [if_neg (by simp [hguard])]
    cases outcome <;> rfl

/-- Witness for C10: a concrete errored streaming turn and a concrete
failed non-streaming turn both end with an empty selection and the uploaded
list untouched. -/
theorem send_clears_selection_keeps_uploads_witness :
    (Chat.handleSendMessage
        { messages := [], uploadedImages := [], selectedImages :=
            [{ id := "i1", url := "blob:1", uploadedPath := some "p1",
               isUploading := false, uploadError := none }],
          isGenerating := false, isWaitingForLogConfirmation := false,
          isConnected := true, error := none, currentModelId := some "m",
          generationRequests := 0, ackRequested := false }
        "hi" [] "u" "a" true
        [ApiStream.SSELine.startEvt, ApiStream.SSELine.errorEvt "e"]
        ApiStream.StreamEnd.cleanEof true).selectedImages = []
    ∧ (Simple.legacyHandleSendMessage
        { messages := [], uploadedImages :=
            [{ id := "i1", url := "blob:1", uploadedPath := some "p1",
               isUploading := false, uploadError := none }],
          selectedImages :=
            [{ id := "i1", url := "blob:1", uploadedPath := some "p1",
               isUploading := false, uploadError := none }],
          isGenerating := false, error := none }
        "hi" [] "u" "a" (Except.error "x")).uploadedImages
      = [{ id := "i1", url := "blob:1", uploadedPath := some "p1",
           isUploading := false, uploadError := none }] := by
  have h := send_clears_selection_keeps_uploads
    { messages := [], uploadedImages := [], selectedImages :=
        [{ id := "i1", url := "blob:1", uploadedPath := some "p1",
           isUploading := false, uploadError := none }],
      isGenerating := false, isWaitingForLogConfirmation := false,
      isConnected := true, error := none, currentModelId := some "m",
      generationRequests := 0, ackRequested := false }
    { messages := [], uploadedImages :=
        [{ id := "i1", url := "blob:1", uploadedPath := some "p1",
           isUploading := false, uploadError := none }],
      selectedImages :=
        [{ id := "i1", url := "blob:1", uploadedPath := some "p1",
           isUploading := false, uploadError := none }],
      isGenerating := false, error := none }
    "hi" [] "u" "a" "m" true
    [ApiStream.SSELine.startEvt, ApiStream.SSELine.errorEvt "e"]
    ApiStream.StreamEnd.cleanEof true (Except.error "x")
    (by decide) rfl
  exact ⟨h.1, h.2.2.2⟩
